import Mathlib

/-!
Shallow embedding of the asynchronous logging pipeline in
`src/vendor/xframe/log/logext.go` (package `log`).

Modelling conventions:
* Machine integers become `Nat` / `Int`; flag bit tests use `Nat` bitwise ops.
* The bounded channel `buf chan []byte` becomes a `List String` held in the
  logger state; an enqueue appends at the tail.  The `isClosed chan bool`
  becomes a `Bool` recording whether a value was ever sent on it.
* The sink `out io.WriteCloser` becomes a pair of fields: the list of byte
  sequences written so far and a closed flag.
* A Go runtime fault (index out of range) is modelled by an explicit
  `OutputStep.fault` result; code after the faulting expression is not
  reached.
* `time.Now()` becomes an explicit `LogTime` argument, and the caller
  information `runtime.Caller` would return becomes an explicit `caller`
  string argument (used only when `enableCallFuncDepth` is set).
* The rotation delegate (`RotateLogger`, not part of the sources) is not
  modelled; a forwarded call is recorded in the result constructor
  `OutputStep.rotateForward` with the exact arguments passed on.
-/

namespace LogExt

/-- Flag constants, from the `iota` block of logext.go. -/
def Ldate : Nat := 1
def Ltime : Nat := 2
def Lmicroseconds : Nat := 4
def Llongfile : Nat := 8
def Lshortfile : Nat := 16
def Lmodule : Nat := 32
def Llevel : Nat := 64
def LstdFlags : Nat := Ldate ||| Ltime ||| Lmicroseconds
def Ldefault : Nat := Lmodule ||| Llevel ||| Lshortfile ||| LstdFlags

/-- Level constants, from the second `iota` block of logext.go. -/
def Lnop : Nat := 0
def Ldebug : Nat := 1
def Linfo : Nat := 2
def Lwarn : Nat := 3
def Lerror : Nat := 4
def Lpanic : Nat := 5
def Lfatal : Nat := 6

def BUFFER_SIZE : Nat := 1000

/-- `var levels = []string{...}` -/
def levels : List String :=
  ["", "[DEBUG]", "[INFO]", "[WARN]", "[ERROR]", "[PANIC]", "[FATAL]"]

/-- `var level_flags = []string{...}` -/
def level_flags : List String :=
  ["", "debug", "info", "warn", "error", "panic", "fatal"]

/-- The `Logger` struct.  `prefix` is a reserved word in Lean, so the field is
named `pfx`; `out` is modelled by `sinkWritten`/`sinkClosed`; the channels
`buf` and `isClosed` are modelled by a list and a boolean. -/
structure Logger where
  pfx : String
  flag : Nat
  Level : Nat
  levelStats : List Int
  enableCallFuncDepth : Bool
  callFuncDepth : Nat
  rotate : Bool
  buf : List String
  isClosedSignal : Bool
  sinkWritten : List String
  sinkClosed : Bool
  deriving Repr, DecidableEq

/-- `New(out, prefix, flag)`: fresh logger, `Level: 1`, empty channel of
capacity `BUFFER_SIZE`, zeroed `[6]int64` level statistics. -/
def New (pfx : String) (flag : Nat) : Logger :=
  { pfx := pfx
    flag := flag
    Level := 1
    levelStats := List.replicate 6 0
    enableCallFuncDepth := false
    callFuncDepth := 0
    rotate := false
    buf := []
    isClosedSignal := false
    sinkWritten := []
    sinkClosed := false }

/-- Go `fmt.Sprintf` zero padding `%0wd` for a natural number. -/
def padZero (w : Nat) (n : Nat) : String :=
  let s := toString n
  String.mk (List.replicate (w - s.length) '0') ++ s

/-- `formatHeader2(t, lvl, reqId)`: builds the header string
`prefix + date + clock + reqid + level + source`, each segment present only
when the corresponding flag/condition holds.  `caller` stands for the
`function:file:line ` text `runtime.Caller` would produce. -/
def Logger.formatHeader2 (l : Logger) (t_year t_month t_day t_hour t_min t_sec t_nsec : Nat)
    (caller : String) (lvl : Nat) (reqId : String) : String :=
  let date :=
    if l.flag &&& (Ldate ||| Ltime ||| Lmicroseconds) ≠ 0 ∧ l.flag &&& Ldate ≠ 0 then
      "[" ++ toString t_year ++ "-" ++ padZero 2 t_month ++ "-" ++ padZero 2 t_day ++ " "
    else ""
  let clock :=
    if l.flag &&& (Ldate ||| Ltime ||| Lmicroseconds) ≠ 0 ∧
        l.flag &&& (Ltime ||| Lmicroseconds) ≠ 0 then
      let t_clock := padZero 2 t_hour ++ ":" ++ padZero 2 t_min ++ ":" ++ padZero 2 t_sec
      let t_ms := if l.flag &&& Lmicroseconds ≠ 0 then "." ++ padZero 6 (t_nsec / 1000) else ""
      t_clock ++ t_ms ++ "] "
    else ""
  let reqid := if reqId ≠ "" then "[" ++ reqId ++ "]" else ""
  let level := if l.flag &&& Llevel ≠ 0 then levels.getD lvl "" else ""
  let source := if l.enableCallFuncDepth then caller else ""
  l.pfx ++ date ++ clock ++ reqid ++ level ++ source

/-- `l.levelStats[lvl]++` on the `[6]int64` array: in Go an index `≥ 6`
faults (index out of range), modelled by `none`. -/
def incStat (stats : List Int) (i : Nat) : Option (List Int) :=
  if h : i < stats.length then some (stats.set i (stats.get ⟨i, h⟩ + 1)) else none

/-- The observable outcome of one `Output` call.
`rotateForward` is the `return l.rotateLogger.Output(...)` path;
`rejected` is the `lvl < l.Level` early `return nil`;
`accepted` records the hook invocation `hooks.Fire(levelName, content)` and
the bytes enqueued on `buf` (the `return nil` at the end);
`fault` is the runtime panic raised by `l.levelStats[lvl]++` going out of
bounds, which prevents everything after it. -/
inductive OutputStep where
  | rotateForward (reqId : String) (lvl : Nat) (calldepth : Nat) (s : String)
  | rejected
  | accepted (hookLevelName : String) (content : String)
  | fault
  deriving Repr, DecidableEq

/-- `Output(reqId, lvl, calldepth, s)`, translated line by line from
logext.go lines 167-184. -/
def Logger.Output (l : Logger) (t_year t_month t_day t_hour t_min t_sec t_nsec : Nat)
    (caller : String) (reqId : String) (lvl : Nat) (calldepth : Nat) (s : String) :
    Logger × OutputStep :=
  if l.rotate then
    (l, .rotateForward reqId lvl calldepth s)
  else if lvl < l.Level then
    (l, .rejected)
  else
    match incStat l.levelStats lvl with
    | none => (l, .fault)
    | some stats2 =>
      let l2 : Logger := { l with levelStats := stats2 }
      let hd := l2.formatHeader2 t_year t_month t_day t_hour t_min t_sec t_nsec caller lvl reqId
      let content := hd ++ s
      let content := if s.length > 0 ∧ s.back ≠ '\n' then content ++ "\n" else content
      ({ l2 with buf := l2.buf ++ [content] },
       .accepted (level_flags.getD lvl "") content)

/-- `Close()`: calls the rotation delegate's `Close` when in rotation mode
and does nothing otherwise.  The returned boolean records whether the
delegate's `Close` was invoked. -/
def Logger.Close (l : Logger) : Logger × Bool :=
  if l.rotate then (l, true) else (l, false)

/-- The `case <-l.isClosed:` branch of `RealWrite`: drain the channel
non-blocking until empty, writing each buffer to the sink, then close the
sink.  This branch runs only after a value is received on `isClosed`. -/
def drainClose (l : Logger) : Logger :=
  { l with buf := [], sinkWritten := l.sinkWritten ++ l.buf, sinkClosed := true }

/-- One iteration of the main `select` loop of `RealWrite` when the channel
has a pending buffer: dequeue and write it to the sink. -/
def consumeStep (l : Logger) : Logger :=
  match l.buf with
  | [] => l
  | b :: rest => { l with buf := rest, sinkWritten := l.sinkWritten ++ [b] }

/-- Go `fmt.Sprintln` applied to a single string operand: the operand
followed by a newline. -/
def Sprintln1 (x : String) : String := x ++ "\n"

/-- `Info(v...)`: guarded by `Linfo < l.Level`, then
`l.Output("", Linfo, 2, fmt.Sprintln(v...))`.  `none` in the second
component means the guard returned early and `Output` was never called. -/
def Logger.Info (l : Logger) (t_year t_month t_day t_hour t_min t_sec t_nsec : Nat)
    (caller : String) (x : String) : Logger × Option OutputStep :=
  if Linfo < l.Level then (l, none)
  else
    let r := l.Output t_year t_month t_day t_hour t_min t_sec t_nsec caller "" Linfo 2
      (Sprintln1 x)
    (r.1, some r.2)

/-- How a `Fatal*` call ends the process: `exited c` is `os.Exit(c)`;
`faulted` means a runtime panic inside `Output` unwound before the
`os.Exit(1)` statement was reached. -/
inductive ProcOutcome where
  | exited (code : Nat)
  | faulted
  deriving Repr, DecidableEq

/-- `Fatal(v...)`: `l.Output("", Lfatal, 2, fmt.Sprint(v...))` followed by
`os.Exit(1)`.  `s` stands for the `fmt.Sprint(v...)` result.  If `Output`
faults, control never reaches `os.Exit`. -/
def Logger.Fatal (l : Logger) (t_year t_month t_day t_hour t_min t_sec t_nsec : Nat)
    (caller : String) (s : String) : Logger × OutputStep × ProcOutcome :=
  let r := l.Output t_year t_month t_day t_hour t_min t_sec t_nsec caller "" Lfatal 2 s
  match r.2 with
  | .fault => (r.1, r.2, .faulted)
  | _ => (r.1, r.2, .exited 1)

/-- `Panic(v...)`: `s := fmt.Sprint(v...)`, then
`l.Output("", Lpanic, 2, s)`, then `panic(s)`.  The third component is the
value carried by the panic. -/
def Logger.Panic (l : Logger) (t_year t_month t_day t_hour t_min t_sec t_nsec : Nat)
    (caller : String) (s : String) : Logger × OutputStep × String :=
  let r := l.Output t_year t_month t_day t_hour t_min t_sec t_nsec caller "" Lpanic 2 s
  (r.1, r.2, s)

/-- `SetOutputLevelString(lv)`: the `switch` over the level name with
all-lowercase and all-uppercase cases joined by `fallthrough`, defaulting
to `Linfo`.  (In rotation mode the new level is additionally forwarded to
the rotation delegate, which is outside the model.) -/
def Logger.SetOutputLevelString (l : Logger) (lv : String) : Logger :=
  let level :=
    if lv = "debug" ∨ lv = "DEBUG" then Ldebug
    else if lv = "info" ∨ lv = "INFO" then Linfo
    else if lv = "warn" ∨ lv = "WARN" then Lwarn
    else if lv = "error" ∨ lv = "ERROR" then Lerror
    else Linfo
  { l with Level := level }

/-- `true` exactly for the `OutputStep` constructors that correspond to a
`return nil` statement in `Output` (the early rejection return and the
final return after the enqueue). -/
def stepReturnsNil : OutputStep → Bool
  | .rejected => true
  | .accepted _ _ => true
  | .rotateForward _ _ _ _ => false
  | .fault => false

/-- The bytes an accepted `Output` call hands to the channel: header plus
message, with a newline appended when the message is non-empty and its last
byte is not already a newline (logext.go lines 176-180). -/
def recordContent (l : Logger) (t_year t_month t_day t_hour t_min t_sec t_nsec : Nat)
    (caller reqId : String) (lvl : Nat) (msg : String) : String :=
  let hd := l.formatHeader2 t_year t_month t_day t_hour t_min t_sec t_nsec caller lvl reqId
  if msg.length > 0 ∧ msg.back ≠ '\n' then hd ++ msg ++ "\n" else hd ++ msg

/-- `formatHeader2` does not read `levelStats` or `buf`, so updating them
first does not change the header. -/
theorem formatHeader2_stats_irrel (l : Logger) (stats : List Int) (b : List String)
    (y mo d h mi se ns : Nat) (caller : String) (lvl : Nat) (reqId : String) :
    ({ l with levelStats := stats, buf := b } : Logger).formatHeader2
        y mo d h mi se ns caller lvl reqId =
      l.formatHeader2 y mo d h mi se ns caller lvl reqId := rfl

/-- Helper: the full behaviour of an accepted `Output` call in non-rotation
mode with the level inside the bounds of the statistics array: the level's
counter is incremented, the hook is fired with the level's lowercase name
and the record bytes, and the record bytes are enqueued. -/
theorem output_accepted_spec (l : Logger) (y mo d h mi se ns : Nat) (caller reqId : String)
    (lvl cd : Nat) (msg : String) (hrot : l.rotate = false) (hacc : l.Level ≤ lvl)
    (hlen : lvl < l.levelStats.length) :
    l.Output y mo d h mi se ns caller reqId lvl cd msg =
      ({ l with
          levelStats := l.levelStats.set lvl (l.levelStats.get ⟨lvl, hlen⟩ + 1),
          buf := l.buf ++ [recordContent l y mo d h mi se ns caller reqId lvl msg] },
       .accepted (level_flags.getD lvl "")
         (recordContent l y mo d h mi se ns caller reqId lvl msg)) := by
  unfold Logger.Output
  rw [hrot]
  simp only [Bool.false_eq_true, if_false, Nat.not_lt.mpr hacc, if_neg (Nat.not_lt.mpr hacc)]
  unfold incStat
  rw [dif_pos hlen]
  rfl

/-- A non-rotation logger with one record still resident in the queue. -/
def c1Logger : Logger := { New "" 0 with buf := ["pending record\n"] }

/-- C1: for a non-rotation Logger, `Close` is claimed to signal the
consumer, drain the queue to the Sink, and close the Sink.  The code's
`Close` only touches the rotation delegate: on a non-rotation logger with a
record still queued it returns with the queue intact, no `isClosed` signal
ever sent, nothing written to the Sink, and the Sink left open — while the
(unreachable) drain branch of `RealWrite` would have delivered the record
and closed the Sink had it been signalled. -/
theorem close_nonrotation_is_noop :
    c1Logger.Close = (c1Logger, false) ∧
    c1Logger.Close.1.buf = ["pending record\n"] ∧
    c1Logger.Close.1.isClosedSignal = false ∧
    c1Logger.Close.1.sinkWritten = [] ∧
    c1Logger.Close.1.sinkClosed = false ∧
    (drainClose c1Logger).sinkWritten = ["pending record\n"] ∧
    (drainClose c1Logger).sinkClosed = true := by
  refine ⟨rfl, rfl, rfl, rfl, rfl, rfl, rfl⟩

/-- C2: `Lfatal = 6` is a recognized severity, but `levelStats` is a
six-element array indexed `0..5`, so an accepted record at the Fatal level
makes `l.levelStats[lvl]++` fault (index out of range) instead of
incrementing a counter: the access is not in bounds for every recognized
severity.  (For levels `1..5` the increment does hit exactly that level's
cell, as the `Lwarn` conjunct shows.) -/
theorem output_fatal_counter_faults :
    ((New "" 0).Output 2026 10 11 12 34 56 0 "" "" Lfatal 2 "boom") = (New "" 0, .fault) ∧
    (New "" 0).Level ≤ Lfatal ∧
    (New "" 0).levelStats.length = 6 ∧
    ((New "" 0).Output 2026 10 11 12 34 56 0 "" "" Lwarn 2 "boom").1.levelStats =
      [0, 0, 0, 1, 0, 0] := by
  refine ⟨?_, by decide, by decide, ?_⟩ <;> decide

/-- C8: `Fatal` is claimed to hand the record to the pipeline and only then
terminate the process via `os.Exit(1)`.  On a non-rotation logger that
accepts the Fatal level, the counter access inside `Output` faults first:
nothing is enqueued and the `os.Exit(1)` statement is never reached, so the
process ends by an index-out-of-range panic, not by the claimed
emit-then-exit sequence. -/
theorem fatal_faults_before_exit :
    (New "" 0).Fatal 2026 10 11 12 34 56 0 "" "bye" = (New "" 0, .fault, .faulted) ∧
    ((New "" 0).Fatal 2026 10 11 12 34 56 0 "" "bye").1.buf = [] ∧
    ((New "" 0).Fatal 2026 10 11 12 34 56 0 "" "bye").2.2 ≠ .exited 1 := by
  refine ⟨by decide, by decide, by decide⟩

/-- C3 counterexample: an accepted record whose message is the empty string
is handed to the Sink as the bare header with no trailing newline at all --
the `len(s) > 0` guard means no newline is appended for an empty message,
refuting "the written bytes always end in exactly one newline, including
one whose message is the empty string". -/
theorem output_empty_message_no_newline :
    ((New "x" 0).Output 2026 10 11 12 34 56 0 "" "" Linfo 2 "").2 = .accepted "info" "x" ∧
    "x".back ≠ '\n' ∧ "x".data.getLast? ≠ some '\n' := by
  refine ⟨by decide, by decide, by decide⟩

/-- C3 (amended): for every accepted record in non-rotation mode the bytes
handed to the Sink are header + message, with a newline appended iff the
message is non-empty and does not already end in one (an empty message gets
no newline, and a message already ending in newlines is left as is). -/
theorem output_content_newline_rule (l : Logger) (y mo d h mi se ns : Nat)
    (caller reqId : String) (lvl cd : Nat) (msg : String) (hrot : l.rotate = false)
    (hacc : l.Level ≤ lvl) (hlen : lvl < l.levelStats.length) :
    (l.Output y mo d h mi se ns caller reqId lvl cd msg).2 =
      .accepted (level_flags.getD lvl "")
        (l.formatHeader2 y mo d h mi se ns caller lvl reqId ++ msg ++
          (if msg.length > 0 ∧ msg.back ≠ '\n' then "\n" else "")) := by
  rw [output_accepted_spec l y mo d h mi se ns caller reqId lvl cd msg hrot hacc hlen]
  unfold recordContent
  by_cases hc : msg.length > 0 ∧ msg.back ≠ '\n'
  · rw [if_pos hc, if_pos hc]
  · rw [if_neg hc, if_neg hc, String.append_empty]

/-- C3 amended-claim witness at a concrete input. -/
theorem output_content_newline_rule_witness :
    ((New "x" 0).Output 2026 10 11 12 34 56 0 "" "" Linfo 2 "hi").2 =
      .accepted "info" "xhi\n" :=
  (output_content_newline_rule (New "x" 0) 2026 10 11 12 34 56 0 "" "" Linfo 2 "hi"
    rfl (by decide) (by decide)).trans (by decide)

/-- C4: in non-rotation mode a record is rejected exactly when its level is
below the threshold, and a rejected call returns immediately through the
`return nil` path with the logger state untouched: no counter increment, no
header formatting, no hook firing, no enqueue. -/
theorem output_severity_filter (l : Logger) (y mo d h mi se ns : Nat)
    (caller reqId : String) (lvl cd : Nat) (msg : String) (hrot : l.rotate = false) :
    ((l.Output y mo d h mi se ns caller reqId lvl cd msg).2 = .rejected ↔ lvl < l.Level) ∧
    (lvl < l.Level →
      l.Output y mo d h mi se ns caller reqId lvl cd msg = (l, .rejected) ∧
      stepReturnsNil (l.Output y mo d h mi se ns caller reqId lvl cd msg).2 = true) := by
  unfold Logger.Output
  rw [hrot]
  simp only [Bool.false_eq_true, if_false]
  by_cases hlt : lvl < l.Level
  · rw [if_pos hlt]
    exact ⟨⟨fun _ => hlt, fun _ => rfl⟩, fun _ => ⟨rfl, rfl⟩⟩
  · rw [if_neg hlt]
    refine ⟨⟨fun hstep => ?_, fun hlt2 => absurd hlt2 hlt⟩, fun hlt2 => absurd hlt2 hlt⟩
    rcases hinc : incStat l.levelStats lvl with _ | stats2 <;> rw [hinc] at hstep <;>
      simp at hstep

/-- C4 witness at a concrete input: level `Lnop = 0` is below the default
threshold `1`, so the call is rejected with no side effects. -/
theorem output_severity_filter_witness :
    (New "" 0).Output 2026 10 11 12 34 56 0 "" "" Lnop 2 "m" = (New "" 0, .rejected) :=
  ((output_severity_filter (New "" 0) 2026 10 11 12 34 56 0 "" "" Lnop 2 "m" rfl).2
    (by decide)).1

/-- A rotation-mode logger whose threshold is `Lerror`. -/
def c5Logger : Logger := { New "" 0 with rotate := true, Level := Lerror }

/-- C5 counterexample: on a rotation-mode logger with threshold `Lerror`, a
Debug-level call is forwarded to the rotation delegate even though
`Ldebug < Level`, and the logger's per-level counters are untouched --
refuting "forwards ... after severity filtering and after incrementing the
per-level counter". -/
theorem rotate_forward_skips_filter_and_counter :
    c5Logger.Output 2026 10 11 12 34 56 0 "" "r1" Ldebug 2 "m" =
      (c5Logger, .rotateForward "r1" Ldebug 2 "m") ∧
    Ldebug < c5Logger.Level ∧
    (c5Logger.Output 2026 10 11 12 34 56 0 "" "r1" Ldebug 2 "m").1.levelStats =
      List.replicate 6 0 := by
  refine ⟨by decide, by decide, by decide⟩

/-- C5 (amended): in rotation mode `Output` forwards immediately to the
rotation delegate's output method with the original arguments, before the
logger's own severity filter or counter increment runs, and the logger
state -- counters and the bounded queue included -- is never touched. -/
theorem rotate_forwards_immediately (l : Logger) (y mo d h mi se ns : Nat)
    (caller reqId : String) (lvl cd : Nat) (msg : String) (hrot : l.rotate = true) :
    l.Output y mo d h mi se ns caller reqId lvl cd msg =
      (l, .rotateForward reqId lvl cd msg) := by
  unfold Logger.Output
  rw [hrot, if_pos rfl]

/-- C5 amended-claim witness at a concrete input. -/
theorem rotate_forwards_immediately_witness :
    c5Logger.Output 0 0 0 0 0 0 0 "" "a" Lwarn 2 "hello" =
      (c5Logger, .rotateForward "a" Lwarn 2 "hello") :=
  rotate_forwards_immediately c5Logger 0 0 0 0 0 0 0 "" "a" Lwarn 2 "hello" rfl

/-- C6 counterexample: the mixed-case name `"Debug"` is not recognized by
the `switch` (which lists only `"debug"` and `"DEBUG"`), so the threshold
falls back to `Linfo` instead of the `Ldebug` a case-insensitive match
would give. -/
theorem setlevelstring_mixed_case_not_recognized :
    ((New "" 0).SetOutputLevelString "Debug").Level = Linfo ∧ Linfo ≠ Ldebug := by
  refine ⟨by decide, by decide⟩

/-- C6 (amended): `SetOutputLevelString` recognizes exactly the
all-lowercase and all-uppercase spellings of debug/info/warn/error and sets
the corresponding level; every other string -- mixed case included -- sets
the threshold to `Linfo`. -/
theorem setlevelstring_cases (l : Logger) (lv : String) :
    (lv = "debug" ∨ lv = "DEBUG" → (l.SetOutputLevelString lv).Level = Ldebug) ∧
    (lv = "info" ∨ lv = "INFO" → (l.SetOutputLevelString lv).Level = Linfo) ∧
    (lv = "warn" ∨ lv = "WARN" → (l.SetOutputLevelString lv).Level = Lwarn) ∧
    (lv = "error" ∨ lv = "ERROR" → (l.SetOutputLevelString lv).Level = Lerror) ∧
    (lv ∉ (["debug", "DEBUG", "info", "INFO", "warn", "WARN", "error", "ERROR"] :
        List String) →
      (l.SetOutputLevelString lv).Level = Linfo) := by
  unfold Logger.SetOutputLevelString
  refine ⟨fun h => ?_, fun h => ?_, fun h => ?_, fun h => ?_, fun h => ?_⟩
  · rw [if_pos h]
  · rcases h with h | h <;> subst h <;> rfl
  · rcases h with h | h <;> subst h <;> rfl
  · rcases h with h | h <;> subst h <;> rfl
  · simp only [List.mem_cons, List.not_mem_nil, or_false, not_or] at h
    obtain ⟨h1, h2, h3, h4, h5, h6, h7, h8⟩ := h
    rw [if_neg (by tauto), if_neg (by tauto), if_neg (by tauto), if_neg (by tauto)]

/-- C6 amended-claim witness at concrete inputs: a recognized uppercase
name and an unrecognized name. -/
theorem setlevelstring_cases_witness :
    ((New "" 0).SetOutputLevelString "WARN").Level = Lwarn ∧
    ((New "" 0).SetOutputLevelString "fatal").Level = Linfo :=
  ⟨(setlevelstring_cases (New "" 0) "WARN").2.2.1 (Or.inr rfl),
   (setlevelstring_cases (New "" 0) "fatal").2.2.2.2 (by decide)⟩

/-- A logger printing only the level tag, with a non-empty static prefix. -/
def c7Logger : Logger := New "svc " Llevel

/-- C7 counterexample: `Panic` emits the fully formatted record
`"svc [PANIC]boom\n"` to the pipeline but the panic it raises carries only
the raw `fmt.Sprint` message `"boom"` -- not the formatted header+message
the claim requires. -/
theorem panic_value_is_raw_message :
    (c7Logger.Panic 2026 10 11 12 34 56 0 "" "boom").2.1 =
      .accepted "panic" "svc [PANIC]boom\n" ∧
    (c7Logger.Panic 2026 10 11 12 34 56 0 "" "boom").2.2 = "boom" ∧
    "boom" ≠ "svc [PANIC]boom\n" := by
  refine ⟨by decide, by decide, by decide⟩

/-- C7 (amended): `Panic` first emits the record via `Output` at the Panic
level (on an accepting non-rotation logger the fully formatted record is
enqueued), and then raises a panic whose carried value is the caller's
message as built by `fmt.Sprint`/`Sprintf`/`Sprintln`, without the header. -/
theorem panic_emits_then_raises (l : Logger) (y mo d h mi se ns : Nat) (caller : String)
    (s : String) (hrot : l.rotate = false) (hacc : l.Level ≤ Lpanic)
    (hlen : Lpanic < l.levelStats.length) :
    (l.Panic y mo d h mi se ns caller s).2.1 =
      .accepted "panic" (recordContent l y mo d h mi se ns caller "" Lpanic s) ∧
    (l.Panic y mo d h mi se ns caller s).2.2 = s := by
  unfold Logger.Panic
  rw [output_accepted_spec l y mo d h mi se ns caller "" Lpanic 2 s hrot hacc hlen]
  exact ⟨rfl, rfl⟩

/-- C7 amended-claim witness at a concrete input. -/
theorem panic_emits_then_raises_witness :
    (c7Logger.Panic 0 0 0 0 0 0 0 "" "ow").2.1 =
      .accepted "panic" (recordContent c7Logger 0 0 0 0 0 0 0 "" "" Lpanic "ow") ∧
    (c7Logger.Panic 0 0 0 0 0 0 0 "" "ow").2.2 = "ow" :=
  panic_emits_then_raises c7Logger 0 0 0 0 0 0 0 "" "ow" rfl (by decide) (by decide)

/-- The logger of the C9 scenario: flags `date|time|level`, prefix
`"svc "`, threshold `Linfo`. -/
def c9Logger : Logger := { New "svc " (Ldate ||| Ltime ||| Llevel) with Level := Linfo }

/-- C9: with flags `date|time|level`, prefix `"svc "` and threshold Info,
`Info("ready")` produces the record
`svc [YYYY-MM-DD HH:MM:SS] [INFO]ready` + one newline, the header segments
in the fixed order prefix, date, time, correlation id (empty here), level
tag, caller site (empty here); the second conjunct instantiates the
timestamp to `2026-10-11 12:34:56` and exhibits the exact byte string. -/
theorem info_ready_scenario (y mo d h mi se ns : Nat) :
    ((c9Logger.Info y mo d h mi se ns "" "ready").2 =
      some (.accepted "info"
        ("svc " ++ ("[" ++ (toString y ++ ("-" ++ (padZero 2 mo ++ ("-" ++ (padZero 2 d ++
          (" " ++ (padZero 2 h ++ (":" ++ (padZero 2 mi ++ (":" ++ (padZero 2 se ++ ("] " ++
          ("[INFO]" ++ ("ready" ++ "\n")))))))))))))))))) ∧
    (c9Logger.Info 2026 10 11 12 34 56 0 "" "ready").2 =
      some (.accepted "info" "svc [2026-10-11 12:34:56] [INFO]ready\n") := by
  constructor
  · have base : (c9Logger.Info y mo d h mi se ns "" "ready").2 =
        some (.accepted "info"
          (((((("svc " ++ ("[" ++ toString y ++ "-" ++ padZero 2 mo ++ "-" ++ padZero 2 d ++
            " ")) ++ ((padZero 2 h ++ ":" ++ padZero 2 mi ++ ":" ++ padZero 2 se) ++ "" ++
            "] ")) ++ "") ++ "[INFO]") ++ "") ++ ("ready" ++ "\n"))) := rfl
    rw [base]
    refine congrArg some (congrArg (OutputStep.accepted "info") ?_)
    simp [String.append_assoc, String.append_empty, String.empty_append]
  · decide

/-- C10 counterexample: a call to `Output` on a non-rotation logger at the
accepted Fatal level faults on the counter array instead of reaching either
`return nil` statement, so not every `Output` call on a non-rotation logger
returns a nil error. -/
theorem output_fault_path_returns_nothing :
    ((New "y" 0).Output 2027 1 2 3 4 5 6 "" "" Lfatal 2 "msg").2 = .fault ∧
    stepReturnsNil OutputStep.fault = false ∧
    (New "y" 0).rotate = false := by
  refine ⟨by decide, by decide, by decide⟩

/-- C10 (amended): every `Output` call on a non-rotation logger that
actually reaches a `return` statement -- any rejected call, and any
accepted call whose level is inside the bounds of the statistics array --
returns through a `return nil` path; only an accepted call at Fatal level 6
escapes by faulting instead of returning. -/
theorem output_nonrotation_returns_nil (l : Logger) (y mo d h mi se ns : Nat)
    (caller reqId : String) (lvl cd : Nat) (msg : String) (hrot : l.rotate = false)
    (hok : lvl < l.Level ∨ lvl < l.levelStats.length) :
    stepReturnsNil (l.Output y mo d h mi se ns caller reqId lvl cd msg).2 = true := by
  unfold Logger.Output
  rw [hrot]
  simp only [Bool.false_eq_true, if_false]
  by_cases hlt : lvl < l.Level
  · rw [if_pos hlt]
    rfl
  · rw [if_neg hlt]
    unfold incStat
    rw [dif_pos (hok.resolve_left hlt)]
    rfl

/-- C10 amended-claim witness at a concrete input: an accepted Panic-level
call returns nil. -/
theorem output_nonrotation_returns_nil_witness :
    stepReturnsNil ((New "" 0).Output 1 1 1 1 1 1 1 "" "" Lpanic 2 "k").2 = true :=
  output_nonrotation_returns_nil (New "" 0) 1 1 1 1 1 1 1 "" "" Lpanic 2 "k" rfl
    (Or.inr (by decide))

end LogExt
